import Mathlib

/-!
Verification of the natural-language specification of the
playlist-downloader application (src/Downloader.py) against a shallow
embedding of its code in Lean.

The embedding follows the source file closely:

* `sanitize_filename`, `is_playlist_url`, `is_valid_youtube_url` embed the
  pure helper methods of class `PlaylistDownloader` (lines 91-108);
* `get_ydl_options` embeds `_get_ydl_options` (lines 259-288);
* `AppState` collects the shared mutable state touched by the GUI and the
  download callbacks (tk variables, the `stop_flag` dict, the
  `active_downloads` list and the per-task `video_counter` dict);
* `write_to_output`, `handle_download_progress`, `handle_download_finished`
  and `progress_hook` embed `YTDlpLogger._write_to_output` and the
  corresponding `PlaylistDownloader` methods;
* `start_download`, `stop_download`, `stop_all_downloads` embed the
  `PlaylistDownloaderGUI` methods of the same names.

Machine reals (Python floats) are modelled as exact rationals; fixed-point
rendering of floats (`:.2f` and friends) is modelled as decimal rounding of
the exact rational value.
-/

namespace Downloader

/-- Lowercased character data of a string, modelling Python's `url.lower()`
(ASCII case folding, which is all the URL patterns exercise). -/
def lowerData (s : String) : List Char :=
  s.data.map Char.toLower

/-- Boolean test that `p` occurs as a contiguous run somewhere in `l`,
modelling Python's substring operator `in` and `re.search` applied to a
literal pattern. -/
def strContains (l p : List Char) : Bool :=
  (List.range (l.length + 1)).any fun i => p.isPrefixOf (l.drop i)

/-- Proposition: `p` occurs contiguously inside `l`. -/
def Occurs (p l : List Char) : Prop :=
  ∃ u v, l = u ++ p ++ v

theorem isPrefixOf_eq_true_iff (p : List Char) : ∀ l : List Char,
    p.isPrefixOf l = true ↔ ∃ t, p ++ t = l := by
  induction p with
  | nil => intro l; simp [List.isPrefixOf]
  | cons a as ih =>
    intro l
    cases l with
    | nil => simp [List.isPrefixOf]
    | cons b bs =>
      simp only [List.isPrefixOf, Bool.and_eq_true, beq_iff_eq, ih bs,
        List.cons_append, List.cons.injEq]
      constructor
      · rintro ⟨rfl, t, rfl⟩; exact ⟨t, rfl, rfl⟩
      · rintro ⟨t, rfl, rfl⟩; exact ⟨rfl, t, rfl⟩

theorem strContains_iff (l p : List Char) : strContains l p = true ↔ Occurs p l := by
  unfold strContains Occurs
  simp only [List.any_eq_true, List.mem_range]
  constructor
  · rintro ⟨i, _, hp⟩
    rw [isPrefixOf_eq_true_iff] at hp
    obtain ⟨t, ht⟩ := hp
    exact ⟨l.take i, t, by rw [List.append_assoc, ht, List.take_append_drop]⟩
  · rintro ⟨u, v, rfl⟩
    refine ⟨u.length, by simp [List.length_append]; omega, ?_⟩
    rw [isPrefixOf_eq_true_iff]
    exact ⟨v, by simp [List.append_assoc, List.drop_left]⟩

theorem strContains_mono (l a q b : List Char)
    (h : strContains l (a ++ q ++ b) = true) : strContains l q = true := by
  rw [strContains_iff] at *
  obtain ⟨u, v, rfl⟩ := h
  exact ⟨u ++ a, b ++ v, by simp [List.append_assoc]⟩

/-- The characters removed by `sanitize_filename` (the regex character class
in `re.sub(r'[<>:"/\\|?*]', '', filename)`, line 93). -/
def forbidden_chars : List Char :=
  ['<', '>', ':', '"', '/', '\\', '|', '?', '*']

/-- `PlaylistDownloader.sanitize_filename` (lines 91-93): remove every
occurrence of a character of the regex class `[<>:"/\\|?*]`. -/
def sanitize_filename (filename : String) : String :=
  String.mk (filename.data.filter fun c => !(forbidden_chars.contains c))

/-- `PlaylistDownloader.is_playlist_url` (lines 95-97):
`'playlist' in url.lower() or 'list=' in url.lower()`. -/
def is_playlist_url (url : String) : Bool :=
  strContains (lowerData url) "playlist".data ||
    strContains (lowerData url) "list=".data

/-- Occurrence test for the regex `youtube\.com/.*[?&]list=` (line 105):
a match of `youtube.com/` at position `i` followed, at some position
`j ≥ i + 12` (12 is the length of `youtube.com/`), by `?list=` or `&list=`. -/
def pattern4 (l : List Char) : Bool :=
  (List.range (l.length + 1)).any fun i =>
    ("youtube.com/".data.isPrefixOf (l.drop i)) &&
      ((List.range (l.length + 1)).any fun j =>
        decide (i + 12 ≤ j) &&
          (("?list=".data.isPrefixOf (l.drop j)) ||
            ("&list=".data.isPrefixOf (l.drop j))))

/-- `PlaylistDownloader.is_valid_youtube_url` (lines 99-108): search the
lowercased URL for any of the five patterns.  All patterns except the
fourth are literal, so `re.search` is an occurrence test of the literal. -/
def is_valid_youtube_url (url : String) : Bool :=
  strContains (lowerData url) "youtube.com/watch?v=".data ||
  strContains (lowerData url) "youtube.com/playlist?list=".data ||
  strContains (lowerData url) "youtu.be/".data ||
  pattern4 (lowerData url) ||
  strContains (lowerData url) "m.youtube.com/".data

theorem pattern4_implies_contains (l : List Char) (h : pattern4 l = true) :
    strContains l "youtube.com/".data = true := by
  unfold pattern4 at h
  unfold strContains
  simp only [List.any_eq_true, List.mem_range, Bool.and_eq_true] at h ⊢
  obtain ⟨i, hi, hpre, _⟩ := h
  exact ⟨i, hi, hpre⟩

/-- Every successful pattern search leaves one of the two platform markers
(`youtube.com` or `youtu.be`) as a substring of the lowercased URL. -/
theorem valid_implies_marker (u : String) (h : is_valid_youtube_url u = true) :
    strContains (lowerData u) "youtube.com".data = true ∨
      strContains (lowerData u) "youtu.be".data = true := by
  unfold is_valid_youtube_url at h
  simp only [Bool.or_eq_true] at h
  rcases h with ((((h | h) | h) | h) | h)
  · exact Or.inl (strContains_mono _ [] "youtube.com".data "/watch?v=".data h)
  · exact Or.inl (strContains_mono _ [] "youtube.com".data "/playlist?list=".data h)
  · exact Or.inr (strContains_mono _ [] "youtu.be".data "/".data h)
  · exact Or.inl (strContains_mono _ [] "youtube.com".data "/".data
      (pattern4_implies_contains _ h))
  · exact Or.inl (strContains_mono _ "m.".data "youtube.com".data "/".data h)

/-- C2 counterexample: `https://www.youtube.com/watch?v=playlist` matches the
single-video watch-page pattern and carries no `list=` parameter, yet
`is_playlist_url` returns `true`, because the video id contains the substring
`playlist`.  This refutes the claim that every URL matching a known
single-video pattern with no list parameter is classified as a non-collection. -/
theorem claim_C2_counterexample :
    strContains (lowerData "https://www.youtube.com/watch?v=playlist")
        "youtube.com/watch?v=".data = true ∧
    strContains (lowerData "https://www.youtube.com/watch?v=playlist")
        "list=".data = false ∧
    is_playlist_url "https://www.youtube.com/watch?v=playlist" = true := by
  decide

/-- C2 (amended): `is_playlist_url` returns `true` exactly when the
lowercased URL contains `playlist` or `list=` as a substring; in particular
it returns `false` for every URL containing neither marker, and `true` for
every URL containing one — matching a single-video pattern does not by
itself force a `false` answer. -/
theorem claim_C2_collection_marker_characterisation (url : String) :
    is_playlist_url url = true ↔
      (Occurs "playlist".data (lowerData url) ∨ Occurs "list=".data (lowerData url)) := by
  unfold is_playlist_url
  rw [Bool.or_eq_true, strContains_iff, strContains_iff]

/-- C6: filename sanitization is idempotent, and no character of the
forbidden set `<>:"/\|?*` survives in the output. -/
theorem claim_C6_sanitize_idempotent_and_clean (s : String) :
    sanitize_filename (sanitize_filename s) = sanitize_filename s ∧
    ((sanitize_filename s).data.any fun c => forbidden_chars.contains c) = false := by
  constructor
  · unfold sanitize_filename
    simp [List.filter_filter, Bool.and_self]
  · unfold sanitize_filename
    simp only [List.any_eq_false, List.mem_filter, Bool.not_eq_true]
    intro c hc
    rcases hc with ⟨_, hcl⟩
    simpa using hcl

/-- C9: `is_valid_youtube_url` returns `false` for every URL lacking both
platform markers `youtube.com` and `youtu.be` (each of the five patterns
contains one of them), in particular for `https://example.com/abc`; and it
returns `true` on each of the five documented URL shapes: watch-page,
playlist-page, short-link, generic query with list parameter, and mobile
domain. -/
theorem claim_C9_validator_patterns :
    (∀ url : String,
        strContains (lowerData url) "youtube.com".data = false →
        strContains (lowerData url) "youtu.be".data = false →
        is_valid_youtube_url url = false) ∧
    is_valid_youtube_url "https://example.com/abc" = false ∧
    is_valid_youtube_url "https://www.youtube.com/watch?v=abc123" = true ∧
    is_valid_youtube_url "https://www.youtube.com/playlist?list=XYZ" = true ∧
    is_valid_youtube_url "https://youtu.be/abc123" = true ∧
    is_valid_youtube_url "https://www.youtube.com/embed/x?start=5&list=PL123" = true ∧
    is_valid_youtube_url "https://m.youtube.com/somepage" = true := by
  refine ⟨?_, by decide, by decide, by decide, by decide, by decide, by decide⟩
  intro url h1 h2
  cases hv : is_valid_youtube_url url with
  | false => rfl
  | true =>
    rcases valid_implies_marker url hv with hm | hm
    · rw [h1] at hm; simp at hm
    · rw [h2] at hm; simp at hm

/-- C9 witness: the universal part of `claim_C9_validator_patterns` applied
to a concrete marker-free URL. -/
theorem claim_C9_witness :
    is_valid_youtube_url "https://foo.example.org/path" = false :=
  claim_C9_validator_patterns.1 "https://foo.example.org/path" (by decide) (by decide)

/-- Path concatenation, modelling `os.path.join(a, b)` for a relative
second component (separator abstracted as `/`). -/
def path_join (a b : String) : String :=
  a ++ "/" ++ b

/-- The option mapping built by `PlaylistDownloader._get_ydl_options`
(lines 259-288).  Function-valued entries (`progress_hooks`, `logger`) and
the `ffmpeg_location` path are carried by the surrounding embedding, not by
this record; `postprocessor_codec` is the `preferredcodec` of the single
`FFmpegExtractAudio` postprocessor when one is requested. -/
structure YdlOptions where
  outtmpl : String
  ignoreerrors : Bool
  noplaylist : Bool
  quiet : Bool
  force_overwrites : Bool
  no_part : Bool
  geo_bypass : Bool
  format : String
  postprocessor_codec : Option String
  merge_output_format : Option String

/-- `PlaylistDownloader._get_ydl_options` (lines 259-288). -/
def get_ydl_options (output_dir : String) (audio_only : Bool) : YdlOptions :=
  if audio_only then
    { outtmpl := path_join output_dir "%(title)s.%(ext)s",
      ignoreerrors := true, noplaylist := false, quiet := false,
      force_overwrites := true, no_part := true, geo_bypass := true,
      format := "bestaudio/best",
      postprocessor_codec := some "mp3",
      merge_output_format := none }
  else
    { outtmpl := path_join output_dir "%(title)s.%(ext)s",
      ignoreerrors := true, noplaylist := false, quiet := false,
      force_overwrites := true, no_part := true, geo_bypass := true,
      format := "bestvideo+bestaudio/best",
      postprocessor_codec := none,
      merge_output_format := some "mp4" }

/-- Modelled from the spec: the external Media-Fetch Service renders the
output naming template by substituting the resolved title and extension for
`%(title)s` and `%(ext)s`.  The missing piece is the template renderer of
the external library; nothing in this repository transforms the title on
this path, and in particular `_get_ydl_options` does not call
`sanitize_filename`. -/
def rendered_filename (output_dir title ext : String) : String :=
  output_dir ++ "/" ++ title ++ "." ++ ext

/-- Shared mutable state touched by the GUI methods and the download
callbacks: the tk display variables, the stop_flag dict, the
active_downloads list (threads as numeric identities) and the per-task
video_counter dict of the task under consideration (created at lines 149
and 190, shared between that task's hook and logger). -/
structure AppState where
  stop : Bool
  active_downloads : List Nat
  download_btn : Bool
  progress_var : ℚ
  progress_label : String
  status : String
  output_lines : List (String × String)
  counter : Nat
  url : String
  dir : String
  audio_choice : Nat

/-- The progress label text `f"Progress: {current}/{total}"`. -/
def progressLabel (current total : Nat) : String :=
  "Progress: " ++ toString current ++ "/" ++ toString total

/-- The event dict `d` handed to the progress hook by the fetch service.
`none` models both a missing key and a present-but-`None` value (the code
only ever tests truthiness). -/
structure ProgressEvent where
  status : String
  downloaded_bytes : Option Nat
  total_bytes : Option Nat
  speed : Option ℚ
  eta : Option Nat
  fragment_index : Option Nat
  fragments : Option Nat
  total_fragments : Option Nat

/-- Two-digit zero padding, modelling the format specifier `:02d`. -/
def pad2 (n : Nat) : String :=
  if n < 10 then "0" ++ toString n else toString n

/-- Fixed-point rendering with two decimals of an exact rational, modelling
the float format specifier `:.2f` (decimal rounding of the exact value). -/
def fmtFixed2 (q : ℚ) : String :=
  let n : Int := Rat.floor (q * 100 + 1 / 2)
  toString (n / 100) ++ "." ++ pad2 (n % 100).toNat

/-- Fixed-point rendering with one decimal, modelling `:.1f`. -/
def fmtFixed1 (q : ℚ) : String :=
  let n : Int := Rat.floor (q * 10 + 1 / 2)
  toString (n / 10) ++ "." ++ toString (n % 10).toNat

/-- Left padding with spaces to a minimum width, as in `:5.1f` / `:7.2f`. -/
def padLeft (w : Nat) (s : String) : String :=
  if s.length < w then String.mk (List.replicate (w - s.length) ' ') ++ s else s

/-- The `speed_str` of `_handle_download_progress` (lines 227-228):
`d.get('speed', 0)` rendered in MiB/s, `?` when falsy. -/
def speed_str (d : ProgressEvent) : String :=
  let speed := d.speed.getD 0
  if speed ≠ 0 then fmtFixed2 (speed / 1024 / 1024) ++ "MiB/s" else "?"

/-- The `eta_str` of `_handle_download_progress` (lines 230-231):
`mm:ss` with two-digit fields, `?` when the ETA is absent or zero. -/
def eta_str (d : ProgressEvent) : String :=
  match d.eta with
  | some e => if e ≠ 0 then pad2 (e / 60) ++ ":" ++ pad2 (e % 60) else "?"
  | none => "?"

/-- The `frag_str` of `_handle_download_progress` (lines 234-238). -/
def frag_str (d : ProgressEvent) : String :=
  match d.fragments, d.fragment_index with
  | some fr, some fi => "(frag " ++ toString fi ++ "/" ++ toString fr ++ ")"
  | _, _ =>
    match d.fragment_index, d.total_fragments with
    | some fi, some tf => "(frag " ++ toString fi ++ "/" ++ toString tf ++ ")"
    | _, _ => ""

/-- `PlaylistDownloader._handle_download_progress` (lines 220-245).  The
source also computes a `downloaded_mb` value that it never uses; it is
omitted.  Byte counts are exact naturals, percent is an exact rational. -/
def handle_download_progress (d : ProgressEvent) (s : AppState) : AppState :=
  let downloaded := d.downloaded_bytes.getD 0
  let total := d.total_bytes.getD 0
  let percent : ℚ := (downloaded : ℚ) / (total : ℚ) * 100
  let size_mb : ℚ := if total ≠ 0 then (total : ℚ) / 1024 / 1024 else 0
  let progress_line :=
    "[download]  " ++ padLeft 5 (fmtFixed1 percent) ++ "% of ~ " ++
      padLeft 7 (fmtFixed2 size_mb) ++ "MiB at " ++ speed_str d ++ " ETA " ++
      eta_str d ++ " " ++ frag_str d
  { s with progress_var := percent,
           output_lines := s.output_lines ++ [(progress_line, "progress")] }

/-- `PlaylistDownloader._handle_download_finished` (lines 247-257). -/
def handle_download_finished (audio_only : Bool) (total_videos : Nat)
    (s : AppState) : AppState :=
  let s1 := { s with progress_var := 100,
                     output_lines := s.output_lines ++ [("Status: Finished", "info")] }
  if audio_only then
    { s1 with counter := s1.counter + 1,
              progress_label := progressLabel (s1.counter + 1) total_videos }
  else s1

/-- Python `msg.startswith(pre)` as a structural prefix test on the
character data. -/
def startswith (msg pre : String) : Bool :=
  pre.data.isPrefixOf msg.data

/-- `YTDlpLogger._write_to_output` (lines 51-60).  `counters_present`
mirrors the conjunction `video_counter is not None and progress_label_var
is not None and total_videos is not None`; both logger constructions
(lines 152 and 193) pass all three, so it is `true` for every download
task. -/
def write_to_output (audio_only counters_present : Bool) (total_videos : Nat)
    (msg tag : String) (s : AppState) : AppState :=
  let s1 := { s with output_lines := s.output_lines ++ [(msg, tag)] }
  if !audio_only && counters_present then
    if startswith msg "[Merger] Merging formats into" then
      { s1 with counter := s1.counter + 1,
                progress_label := progressLabel (s1.counter + 1) total_videos }
    else s1
  else s1

/-- The `progress_hook` closure of the two download processes (lines
159-166 and 200-207, textually identical).  `Except.error` models the
raised user-cancellation exception; no state update happens on that path. -/
def progress_hook (audio_only : Bool) (total_videos : Nat) (s : AppState)
    (d : ProgressEvent) : Except String AppState :=
  if s.stop then Except.error "Download stopped by user."
  else if d.status = "downloading" ∧ d.downloaded_bytes.isSome = true ∧
      d.total_bytes.getD 0 ≠ 0 then
    Except.ok (handle_download_progress d s)
  else if d.status = "finished" then
    Except.ok (handle_download_finished audio_only total_videos s)
  else Except.ok s

/-- The `finally` block of `run` in `download_content` (lines 125-132):
remove this thread from the registry, re-enable the button, zero the bar. -/
def task_cleanup (tid : Nat) (s : AppState) : AppState :=
  { s with active_downloads := s.active_downloads.erase tid,
           download_btn := true,
           progress_var := 0 }

/-- The `except` and `finally` structure of `run` (lines 112-132): a raised
condition with message `msg` sets status `"Error: " ++ msg` on the state
the exception left behind; cleanup always runs afterwards. -/
def run_result_handler (tid : Nat) (r : Except String AppState)
    (s_at_raise : AppState) : AppState :=
  match r with
  | Except.ok s2 => task_cleanup tid s2
  | Except.error msg => task_cleanup tid { s_at_raise with status := "Error: " ++ msg }

/-- A download request as captured by `start_download` (line 542). -/
structure Request where
  url : String
  output_dir : String
  audio_only : Bool

/-- Result of `start_download`: the updated shared state, an error dialog
when one was shown, and the request handed to `download_content` when a
background task was launched. -/
structure StartResult where
  st : AppState
  dialog : Option String
  task : Option Request

/-- Python `str.strip()`: drop leading and trailing whitespace. -/
def isSpaceCh (c : Char) : Bool :=
  c = ' ' || c = '\t' || c = '\n' || c = '\r' || c = '\x0b' || c = '\x0c'

/-- Python `str.strip()` with no argument (whitespace stripping), written
with structural list recursion. -/
def strip (s : String) : String :=
  String.mk (((s.data.dropWhile isSpaceCh).reverse.dropWhile isSpaceCh).reverse)

/-- `PlaylistDownloaderGUI.start_download` (lines 508-542). -/
def start_download (s : AppState) : StartResult :=
  let url := strip s.url
  let output_dir := if strip s.dir = "" then "downloads" else strip s.dir
  let audio_only := s.audio_choice == 1
  if url = "" then
    { st := s, dialog := some "Please enter a YouTube URL.", task := none }
  else if !(is_valid_youtube_url url) then
    { st := s, dialog := some "Please enter a valid YouTube URL.", task := none }
  else
    let content_type := if is_playlist_url url then "playlist" else "video"
    { st := { s with download_btn := false,
                     progress_var := 0,
                     status := "Downloading " ++ content_type ++ "...",
                     stop := false },
      dialog := none,
      task := some { url := url, output_dir := output_dir, audio_only := audio_only } }

/-- `PlaylistDownloaderGUI.stop_download` (lines 544-548). -/
def stop_download (s : AppState) : AppState :=
  { s with stop := true, status := "Stopping current download..." }

/-- `PlaylistDownloaderGUI.stop_all_downloads` (lines 550-576).  In the
nonempty branch the final value of the status variable is recorded (the
intermediate "Stopping N active download(s)..." message is overwritten at
line 573 before control returns to the event loop). -/
def stop_all_downloads (s : AppState) : AppState :=
  let s1 := { s with stop := true }
  if s1.active_downloads ≠ [] then
    { s1 with active_downloads := [],
              download_btn := true,
              progress_var := 0,
              progress_label := "Progress: 0/0",
              status := "All downloads stopped." }
  else
    { s1 with status := "No active downloads to stop." }

/-- A quiescent application state used to instantiate witnesses. -/
def sampleState : AppState :=
  { stop := false, active_downloads := [], download_btn := true, progress_var := 0,
    progress_label := "Progress: 0/0", status := "Ready.",
    output_lines := [], counter := 0,
    url := "https://www.youtube.com/watch?v=abc123", dir := "", audio_choice := 0 }

/-- A `finished` progress event. -/
def finishedEvent : ProgressEvent :=
  { status := "finished", downloaded_bytes := none, total_bytes := none,
    speed := none, eta := none, fragment_index := none, fragments := none,
    total_fragments := none }

/-- A `downloading` progress event at the halfway point of a 2 MiB file,
transferring at 2 MiB/s with 75 seconds to go. -/
def downloadingEvent : ProgressEvent :=
  { status := "downloading", downloaded_bytes := some 1048576,
    total_bytes := some 2097152, speed := some 2097152, eta := some 75,
    fragment_index := none, fragments := none, total_fragments := none }

/-- C3 counterexample: for the title `a<b` the configured naming template
renders `d/a<b.mp4`, which differs from the name obtained by applying
`sanitize_filename` to the title (`d/ab.mp4`): the option builder does not
apply the sanitization function, and the forbidden character `<` survives. -/
theorem claim_C3_counterexample :
    (get_ydl_options "d" false).outtmpl = path_join "d" "%(title)s.%(ext)s" ∧
    rendered_filename "d" "a<b" "mp4" = "d/a<b.mp4" ∧
    sanitize_filename "a<b" = "ab" ∧
    rendered_filename "d" "a<b" "mp4" ≠ "d/" ++ sanitize_filename "a<b" ++ ".mp4" ∧
    ("a<b".data.any fun c => forbidden_chars.contains c) = true := by
  refine ⟨rfl, rfl, by decide, by decide, by decide⟩

/-- C3 (amended): the naming template built by `_get_ydl_options` is the
destination directory joined with `%(title)s.%(ext)s`, in both modes, and
the resolved title is substituted verbatim; `sanitize_filename`, though
defined, is not applied on this path, so the filename carries the stripped
title only for titles that are already fixed points of the sanitizer. -/
theorem claim_C3_template_is_verbatim_title (output_dir title ext : String)
    (audio_only : Bool) (h : sanitize_filename title = title) :
    (get_ydl_options output_dir audio_only).outtmpl =
      path_join output_dir "%(title)s.%(ext)s" ∧
    rendered_filename output_dir title ext =
      output_dir ++ "/" ++ sanitize_filename title ++ "." ++ ext := by
  constructor
  · cases audio_only <;> rfl
  · rw [h]; rfl

/-- C3 witness: the amended statement at a title with no forbidden
character. -/
theorem claim_C3_witness :
    (get_ydl_options "d" false).outtmpl = path_join "d" "%(title)s.%(ext)s" ∧
    rendered_filename "d" "abc" "mp4" = "d" ++ "/" ++ sanitize_filename "abc" ++ "." ++ "mp4" :=
  claim_C3_template_is_verbatim_title "d" "abc" "mp4" false (by decide)

/-- C1: with the stop flag clear, a `finished` event is dispatched to
`_handle_download_finished`, which always marks the current item 100
percent; the completed-item counter is incremented there exactly in AUDIO
mode, with the label updated to `current/total`; in VIDEO mode that handler
leaves counter and label alone, and instead the log sink increments the
counter exactly on messages starting with `[Merger] Merging formats into`,
updating the label alongside; in AUDIO mode the log sink never increments. -/
theorem claim_C1_finished_vs_merger_counting (s : AppState) (d : ProgressEvent)
    (total : Nat) (msg tag : String) :
    (s.stop = false → d.status = "finished" → ∀ audio_only,
      progress_hook audio_only total s d =
        Except.ok (handle_download_finished audio_only total s)) ∧
    ((handle_download_finished true total s).progress_var = 100 ∧
      (handle_download_finished true total s).counter = s.counter + 1 ∧
      (handle_download_finished true total s).progress_label =
        progressLabel (s.counter + 1) total) ∧
    ((handle_download_finished false total s).progress_var = 100 ∧
      (handle_download_finished false total s).counter = s.counter ∧
      (handle_download_finished false total s).progress_label = s.progress_label) ∧
    ((write_to_output false true total msg tag s).counter =
      if startswith msg "[Merger] Merging formats into" then s.counter + 1
      else s.counter) ∧
    (startswith msg "[Merger] Merging formats into" = true →
      (write_to_output false true total msg tag s).progress_label =
        progressLabel (s.counter + 1) total) ∧
    ((write_to_output true true total msg tag s).counter = s.counter) := by
  refine ⟨?_, ?_, ?_, ?_, ?_, ?_⟩
  · intro h0 h1 audio_only
    simp [progress_hook, h0, h1]
  · simp [handle_download_finished]
  · simp [handle_download_finished]
  · by_cases hm : startswith msg "[Merger] Merging formats into" <;>
      simp [write_to_output, hm]
  · intro hm
    simp [write_to_output, hm]
  · simp [write_to_output]

/-- C1 witness: a finished event in AUDIO mode, and a merger log line in
VIDEO mode, at a concrete state. -/
theorem claim_C1_witness :
    progress_hook true 3 sampleState finishedEvent =
      Except.ok (handle_download_finished true 3 sampleState) ∧
    (handle_download_finished true 3 sampleState).counter = sampleState.counter + 1 ∧
    (write_to_output false true 3 "[Merger] Merging formats into v.mp4" "info"
        sampleState).progress_label = progressLabel (sampleState.counter + 1) 3 :=
  let h := claim_C1_finished_vs_merger_counting sampleState finishedEvent 3
    "[Merger] Merging formats into v.mp4" "info"
  ⟨h.1 rfl rfl true, h.2.1.2.1, h.2.2.2.2.1 (by decide)⟩

/-- C4 counterexample: with an already-empty ActiveTaskRegistry and the
progress label still reading `Progress: 2/5`, `stop_all_downloads` leaves
the label unchanged instead of resetting it: the reset is inside the branch
guarded by a nonempty registry, refuting the claim for the empty prior
state it explicitly includes. -/
theorem claim_C4_counterexample :
    (stop_all_downloads { sampleState with
        progress_label := "Progress: 2/5" }).progress_label = "Progress: 2/5" ∧
    (stop_all_downloads { sampleState with
        progress_label := "Progress: 2/5" }).progress_label ≠ "Progress: 0/0" := by
  exact ⟨rfl, by decide⟩

/-- C4 (amended): every call to `stop_all_downloads` sets the stop flag and
leaves the registry empty; when the registry was nonempty it is cleared
synchronously — no wait on any worker task, which is only signalled through
the flag — with the label reset to `Progress: 0/0`, the button re-enabled
and the bar zeroed; when the registry was already empty, only the status
message changes and the label keeps its prior value. -/
theorem claim_C4_stop_all_behaviour (s : AppState) :
    (stop_all_downloads s).stop = true ∧
    (stop_all_downloads s).active_downloads = [] ∧
    (s.active_downloads ≠ [] →
      (stop_all_downloads s).progress_label = "Progress: 0/0" ∧
      (stop_all_downloads s).download_btn = true ∧
      (stop_all_downloads s).progress_var = 0 ∧
      (stop_all_downloads s).status = "All downloads stopped.") ∧
    (s.active_downloads = [] →
      (stop_all_downloads s).progress_label = s.progress_label ∧
      (stop_all_downloads s).status = "No active downloads to stop.") := by
  by_cases h : s.active_downloads = [] <;> simp [stop_all_downloads, h]

/-- C4 witness: the nonempty-registry branch at a concrete state. -/
theorem claim_C4_witness :
    (stop_all_downloads { sampleState with active_downloads := [7] }).stop = true ∧
    (stop_all_downloads { sampleState with active_downloads := [7] }).active_downloads = [] ∧
    (stop_all_downloads { sampleState with
        active_downloads := [7] }).progress_label = "Progress: 0/0" :=
  let h := claim_C4_stop_all_behaviour { sampleState with active_downloads := [7] }
  ⟨h.1, h.2.1, (h.2.2.1 (by decide)).1⟩

/-- C5: when the stop flag is set, the progress hook raises the
user-cancellation condition before performing any update — the `Except`
value carries no successor state, so the counter cannot advance — and the
failure handler of the task turns it into the status text
`Error: Download stopped by user.` followed by the normal cleanup. -/
theorem claim_C5_stop_raises_cancellation (s : AppState) (d : ProgressEvent)
    (audio_only : Bool) (total tid : Nat) (h : s.stop = true) :
    progress_hook audio_only total s d = Except.error "Download stopped by user." ∧
    run_result_handler tid (progress_hook audio_only total s d) s =
      task_cleanup tid { s with status := "Error: Download stopped by user." } ∧
    (run_result_handler tid (progress_hook audio_only total s d) s).counter = s.counter ∧
    (run_result_handler tid (progress_hook audio_only total s d) s).status =
      "Error: Download stopped by user." := by
  have h1 : progress_hook audio_only total s d =
      Except.error "Download stopped by user." := by
    simp [progress_hook, h]
  refine ⟨h1, ?_, ?_, ?_⟩ <;> rw [h1] <;> rfl

/-- C5 witness: a stopped state at a concrete event. -/
theorem claim_C5_witness :
    progress_hook false 3 { sampleState with stop := true } finishedEvent =
      Except.error "Download stopped by user." ∧
    (run_result_handler 7
        (progress_hook false 3 { sampleState with stop := true } finishedEvent)
        { sampleState with stop := true }).status = "Error: Download stopped by user." :=
  let h := claim_C5_stop_raises_cancellation { sampleState with stop := true }
    finishedEvent false 3 7 rfl
  ⟨h.1, h.2.2.2⟩

/-- C7: a start request whose URL is empty after stripping, or fails the
validator, shows a blocking error dialog, creates no background task, and
leaves the whole state — in particular the ActiveTaskRegistry — unchanged. -/
theorem claim_C7_invalid_start_rejected (s : AppState)
    (h : strip s.url = "" ∨ is_valid_youtube_url (strip s.url) = false) :
    (start_download s).task = none ∧
    (start_download s).st = s ∧
    (start_download s).st.active_downloads = s.active_downloads ∧
    ((start_download s).dialog).isSome = true := by
  rcases h with h | h
  · simp [start_download, h]
  · by_cases h0 : strip s.url = ""
    · simp [start_download, h0]
    · simp [start_download, h0, h]

/-- C7 witness: a URL with no platform marker is rejected with a dialog and
no task. -/
theorem claim_C7_witness :
    (start_download { sampleState with url := "https://example.com/abc" }).task = none ∧
    ((start_download { sampleState with url := "https://example.com/abc" }).dialog).isSome = true :=
  let h := claim_C7_invalid_start_rejected
    { sampleState with url := "https://example.com/abc" } (Or.inr (by decide))
  ⟨h.1, h.2.2.2⟩

/-- C8: a `downloading` event with known byte counts and nonzero total is
answered by the progress handler, whose reported percent is exactly
downloaded/total×100; the speed is rendered in MiB/s, or `?` when unknown;
a known nonzero ETA is rendered as mm:ss; and a `downloading` event without
a known (nonzero) total leaves the state — hence the percent — untouched. -/
theorem claim_C8_progress_reporting (d : ProgressEvent) (s : AppState)
    (audio_only : Bool) (total : Nat) :
    (s.stop = false → d.status = "downloading" → d.downloaded_bytes.isSome = true →
      d.total_bytes.getD 0 ≠ 0 →
      progress_hook audio_only total s d = Except.ok (handle_download_progress d s)) ∧
    (handle_download_progress d s).progress_var =
      ((d.downloaded_bytes.getD 0 : ℚ) / (d.total_bytes.getD 0 : ℚ) * 100) ∧
    (∀ q : ℚ, d.speed = some q → q ≠ 0 →
      speed_str d = fmtFixed2 (q / 1024 / 1024) ++ "MiB/s") ∧
    (d.speed.getD 0 = 0 → speed_str d = "?") ∧
    (∀ e : Nat, d.eta = some e → e ≠ 0 →
      eta_str d = pad2 (e / 60) ++ ":" ++ pad2 (e % 60)) ∧
    (s.stop = false → d.status = "downloading" → d.total_bytes.getD 0 = 0 →
      progress_hook audio_only total s d = Except.ok s) := by
  refine ⟨?_, ?_, ?_, ?_, ?_, ?_⟩
  · intro h0 h1 h2 h3
    simp [progress_hook, h0, h1, h2, h3]
  · simp [handle_download_progress]
  · intro q hq hq0
    simp [speed_str, hq, hq0]
  · intro hsp
    simp [speed_str, hsp]
  · intro e he he0
    simp [eta_str, he, he0]
  · intro h0 h1 h2
    simp [progress_hook, h0, h1, h2]

/-- C8 witness: the halfway event of a 2 MiB transfer at 2 MiB/s, ETA 75 s. -/
theorem claim_C8_witness :
    progress_hook false 3 sampleState downloadingEvent =
      Except.ok (handle_download_progress downloadingEvent sampleState) ∧
    (handle_download_progress downloadingEvent sampleState).progress_var =
      ((downloadingEvent.downloaded_bytes.getD 0 : ℚ) /
        (downloadingEvent.total_bytes.getD 0 : ℚ) * 100) ∧
    speed_str downloadingEvent = fmtFixed2 ((2097152 : ℚ) / 1024 / 1024) ++ "MiB/s" ∧
    eta_str downloadingEvent = pad2 (75 / 60) ++ ":" ++ pad2 (75 % 60) :=
  let h := claim_C8_progress_reporting downloadingEvent sampleState false 3
  ⟨h.1 rfl rfl rfl (by decide), h.2.1,
   h.2.2.1 2097152 rfl (by decide), h.2.2.2.2.1 75 rfl (by decide)⟩

theorem progress_hook_ok_of_not_stopped (audio_only : Bool) (total : Nat)
    (s : AppState) (d : ProgressEvent) (h : s.stop = false) :
    ∃ s2, progress_hook audio_only total s d = Except.ok s2 := by
  unfold progress_hook
  simp only [h, Bool.false_eq_true, if_false]
  split
  · exact ⟨_, rfl⟩
  · split
    · exact ⟨_, rfl⟩
    · exact ⟨_, rfl⟩

/-- C10: starting a new download on a valid URL resets the single shared
stop flag to false unconditionally; hence a stop requested earlier by
stop_current (or stop_all) and not yet observed by a still-running older
task is revoked — at its next progress callback the hook no longer raises,
answering every event with a normal `Except.ok`. -/
theorem claim_C10_start_revokes_pending_stop (s : AppState)
    (h1 : strip s.url ≠ "") (h2 : is_valid_youtube_url (strip s.url) = true) :
    (stop_download s).stop = true ∧
    (stop_all_downloads s).stop = true ∧
    (start_download (stop_download s)).st.stop = false ∧
    (start_download (stop_all_downloads s)).st.stop = false ∧
    (∀ d audio_only total, ∃ s2,
      progress_hook audio_only total (start_download (stop_download s)).st d =
        Except.ok s2) := by
  have hsd : (stop_download s).url = s.url := rfl
  have hsa : (stop_all_downloads s).url = s.url := by
    by_cases h : s.active_downloads = [] <;> simp [stop_all_downloads, h]
  have hstop2 : (start_download (stop_download s)).st.stop = false := by
    simp [start_download, hsd, h1, h2]
  refine ⟨rfl, ?_, hstop2, ?_, ?_⟩
  · by_cases h : s.active_downloads = [] <;> simp [stop_all_downloads, h]
  · simp [start_download, hsa, h1, h2]
  · intro d audio_only total
    exact progress_hook_ok_of_not_stopped audio_only total _ d hstop2

/-- C10 witness: stop-then-start at a concrete state with a valid URL. -/
theorem claim_C10_witness :
    (start_download (stop_download sampleState)).st.stop = false ∧
    ∃ s2, progress_hook false 1 (start_download (stop_download sampleState)).st
        downloadingEvent = Except.ok s2 :=
  let h := claim_C10_start_revokes_pending_stop sampleState (by decide) (by decide)
  ⟨h.2.2.1, h.2.2.2.2 downloadingEvent false 1⟩

end Downloader
